import Mathlib

/-!
Shallow embedding of `src/prometheus/Prometheus_client.py`: the class
`AsyncPrometheusQueryExecutor` with its two methods `run_query` (instant
query) and `run_range_query` (range query).  The HTTP stack (httpx) is
modelled as an oracle `net : Request → ServerAction` describing what the
server does for each request, and a `transport` function encoding the
httpx contract used by the client: a response that takes longer than the
configured timeout surfaces as a timeout error, a connection failure as a
connect error.  Each method returns a `CallOutcome`: its Python return
value or raised exception, the list of HTTP requests actually
transmitted, and the state of the executor object after the call (the
methods never assign to `self`, so the translation returns it unchanged
at every exit point).
-/

/-- A JSON value, as returned by `response.json()`. -/
inductive Json where
  | null
  | bool (b : Bool)
  | num (q : Rat)
  | str (s : String)
  | arr (elems : List Json)
  | obj (fields : List (String × Json))

/-- A value in an httpx query-parameter dict: the source stores strings
(`query`, `step`) and floats (`start.timestamp()`, `end.timestamp()`). -/
inductive ParamValue where
  | str (s : String)
  | num (q : Rat)
deriving DecidableEq

/-- An HTTP request as handed to httpx: method and URL of `client.get`,
the `params` dict actually passed to it, the explicit `follow_redirects`
argument (`none` when the source does not pass one), and the timeout the
enclosing `httpx.AsyncClient` was constructed with. -/
structure Request where
  method : String
  url : String
  params : List (String × ParamValue)
  follow_redirects : Option Bool
  timeout : Rat
deriving DecidableEq

/-- An httpx response: status code, headers, raw body text, and the
result of parsing the body as JSON (`none` when the body is not JSON, in
which case `response.json()` raises). -/
structure Response where
  status_code : Nat
  headers : List (String × String)
  text : String
  jsonBody : Option Json

/-- What the server does with a request: answer with a response after
`elapsed` seconds, or fail to connect. -/
inductive ServerAction where
  | respond (elapsed : Rat) (response : Response)
  | failConn (message : String)

/-- A transport-level failure raised by httpx (not by the client code):
timeout exceeded, or connection/DNS failure. -/
inductive TransportError where
  | timeout
  | connectError (message : String)
deriving DecidableEq

/-- A Python runtime error raised before any request is sent. -/
inductive PyError where
  | attributeError (message : String)
deriving DecidableEq

/-- An exception escaping a client method: a transport error propagating
from httpx, an `AttributeError` from evaluating `.timestamp()` on a
non-datetime argument, the generic `Exception(message)` the client raises
on a bad status code (it carries nothing but the formatted string), or a
JSON decode failure from `response.json()`. -/
inductive Error where
  | transport (e : TransportError)
  | pyErr (e : PyError)
  | exn (message : String)
  | jsonDecode
deriving DecidableEq

/-- The httpx transport contract as relied upon by the client: querying
the server oracle, a response slower than the client timeout becomes a
timeout error, a connection failure a connect error. -/
def transport (net : Request → ServerAction) (req : Request) :
    Except TransportError Response :=
  match net req with
  | .respond elapsed resp =>
      if req.timeout < elapsed then .error .timeout else .ok resp
  | .failConn msg => .error (.connectError msg)

/-- The executor object: `self.prometheus_base_url` and
`self.request_timeout`, the only attributes ever assigned (both in
`__init__`). -/
structure AsyncPrometheusQueryExecutor where
  prometheus_base_url : String
  request_timeout : Rat
deriving DecidableEq

/-- `__init__`: `request_timeout` defaults to `10.0` seconds. -/
def AsyncPrometheusQueryExecutor.init (prometheus_base_url : String)
    (request_timeout : Rat := 10) : AsyncPrometheusQueryExecutor :=
  { prometheus_base_url := prometheus_base_url,
    request_timeout := request_timeout }

/-- The observable outcome of one method call: the Python return value
or raised exception, the requests transmitted on the wire during the
call, and the executor object as the call leaves it. -/
structure CallOutcome (α : Type) where
  result : Except Error α
  sentRequests : List Request
  finalSelf : AsyncPrometheusQueryExecutor

/-- The message of the `Exception` raised on a bad status code:
`f"Failed to fetch data: \x7bresponse.status_code\x7d, \x7bresponse.text\x7d"`. -/
def statusFailMessage (status_code : Nat) (text : String) : String :=
  "Failed to fetch data: " ++ toString status_code ++ ", " ++ text

/-- The request `run_query` hands to httpx:
`client.get(f"...", params=\x7b'query': query\x7d)` with no
`follow_redirects` argument, under a client built with
`timeout=self.request_timeout`. -/
def instantRequest (self : AsyncPrometheusQueryExecutor)
    (query : String) : Request :=
  { method := "GET",
    url := self.prometheus_base_url ++ "/api/v1/query",
    params := [("query", .str query)],
    follow_redirects := none,
    timeout := self.request_timeout }

/-- `run_query`: GET `/api/v1/query` with the `query` parameter; on 200
return `response.json()`, otherwise raise
`Exception(f"Failed to fetch data: ...")`. -/
def run_query (self : AsyncPrometheusQueryExecutor)
    (net : Request → ServerAction) (query : String) : CallOutcome Json :=
  match transport net (instantRequest self query) with
  | .error te =>
      ⟨.error (.transport te), [instantRequest self query], self⟩
  | .ok response =>
      if response.status_code == 200 then
        match response.jsonBody with
        | some j => ⟨.ok j, [instantRequest self query], self⟩
        | none => ⟨.error .jsonDecode, [instantRequest self query], self⟩
      else
        ⟨.error (.exn (statusFailMessage response.status_code
            response.text)), [instantRequest self query], self⟩

/-- An argument passed to `run_range_query` as `start` or `end`: a
`datetime` (which has a `.timestamp()` method returning epoch seconds),
or a plain float or int (which has none, so `.timestamp()` raises
`AttributeError`). -/
inductive PyTimeArg where
  | datetimeVal (epochSeconds : Rat)
  | floatVal (x : Rat)
  | intVal (n : Int)
deriving DecidableEq

/-- Evaluating `arg.timestamp()` on a `start`/`end` argument. -/
def timestampAttr : PyTimeArg → Except PyError Rat
  | .datetimeVal t => .ok t
  | .floatVal _ =>
      .error (.attributeError
        "float object has no attribute timestamp")
  | .intVal _ =>
      .error (.attributeError
        "int object has no attribute timestamp")

/-- The Python value `run_range_query` produces when it does not raise:
on 302 it prints `"Redirected to:", headers.get("Location")` and falls
through (returning `None`); on 200 it returns `response.json()`. -/
inductive RangeOutcome where
  | redirected (printedLocation : Option String)
  | success (body : Json)

/-- The characters of a string, lower-cased (used to compare header
names case-insensitively). -/
def lowerChars (s : String) : List Char := s.data.map Char.toLower

/-- `headers.get(key)`: httpx header lookup is case-insensitive and
yields `None` when the header is absent. -/
def headersGet (headers : List (String × String)) (key : String) :
    Option String :=
  (headers.find? (fun h => lowerChars h.1 == lowerChars key)).map (·.2)

/-- The request `run_range_query` hands to httpx:
`client.get(f"...", params=\x7b'query': query\x7d, follow_redirects=False)`
— note the local `params` dict with start/end/step is NOT the one
passed. -/
def rangeRequest (self : AsyncPrometheusQueryExecutor)
    (query : String) : Request :=
  { method := "GET",
    url := self.prometheus_base_url ++ "/api/v1/query",
    params := [("query", .str query)],
    follow_redirects := some false,
    timeout := self.request_timeout }

/-- `run_range_query`: first build the local `params` dict, evaluating
`start.timestamp()` then `end.timestamp()` (an `AttributeError` here
escapes before any request is sent); then GET `/api/v1/query` with only
the `query` parameter and `follow_redirects=False`; on 302 print the
`Location` header and return `None`, on 200 return `response.json()`,
otherwise raise. -/
def run_range_query (self : AsyncPrometheusQueryExecutor)
    (net : Request → ServerAction) (query : String)
    (start end_ : PyTimeArg) (step : String := "1m") :
    CallOutcome RangeOutcome :=
  match timestampAttr start with
  | .error e => ⟨.error (.pyErr e), [], self⟩
  | .ok startTs =>
    match timestampAttr end_ with
    | .error e => ⟨.error (.pyErr e), [], self⟩
    | .ok endTs =>
      let params : List (String × ParamValue) :=
        [("query", .str query), ("start", .num startTs),
         ("end", .num endTs), ("step", .str step)]
      match transport net (rangeRequest self query) with
      | .error te =>
          ⟨.error (.transport te), [rangeRequest self query], self⟩
      | .ok response =>
          if response.status_code == 302 then
            ⟨.ok (.redirected (headersGet response.headers "Location")),
             [rangeRequest self query], self⟩
          else if response.status_code == 200 then
            match response.jsonBody with
            | some j =>
                ⟨.ok (.success j), [rangeRequest self query], self⟩
            | none => ⟨.error .jsonDecode, [rangeRequest self query], self⟩
          else
            ⟨.error (.exn (statusFailMessage response.status_code
                response.text)), [rangeRequest self query], self⟩

/-- One client call in a sequence: either method, with its own server
oracle and arguments. -/
inductive ClientCall where
  | instant (net : Request → ServerAction) (query : String)
  | range (net : Request → ServerAction) (query : String)
      (start end_ : PyTimeArg) (step : String)

/-- The executor object as a single call leaves it. -/
def execCall (self : AsyncPrometheusQueryExecutor) :
    ClientCall → AsyncPrometheusQueryExecutor
  | .instant net query => (run_query self net query).finalSelf
  | .range net query start end_ step =>
      (run_range_query self net query start end_ step).finalSelf

/-- The executor object after a whole sequence of calls. -/
def runCalls (self : AsyncPrometheusQueryExecutor) :
    List ClientCall → AsyncPrometheusQueryExecutor
  | [] => self
  | c :: rest => runCalls (execCall self c) rest

/-! ## Helper lemmas -/

/-- `run_query` never assigns to `self`: every exit point returns it
unchanged. -/
theorem run_query_finalSelf (self : AsyncPrometheusQueryExecutor)
    (net : Request → ServerAction) (query : String) :
    (run_query self net query).finalSelf = self := by
  unfold run_query
  repeat' split
  all_goals rfl

/-- `run_range_query` never assigns to `self`: every exit point returns
it unchanged. -/
theorem run_range_query_finalSelf (self : AsyncPrometheusQueryExecutor)
    (net : Request → ServerAction) (query : String)
    (start end_ : PyTimeArg) (step : String) :
    (run_range_query self net query start end_ step).finalSelf = self := by
  unfold run_range_query
  repeat' split
  all_goals rfl

/-- Every request `run_range_query` transmits is the one built from the
base URL and the `query` parameter alone. -/
theorem run_range_query_sent_eq (self : AsyncPrometheusQueryExecutor)
    (net : Request → ServerAction) (query : String)
    (start end_ : PyTimeArg) (step : String) :
    ∀ req ∈ (run_range_query self net query start end_ step).sentRequests,
      req = rangeRequest self query := by
  intro req hreq
  unfold run_range_query at hreq
  repeat' split at hreq
  all_goals simp_all

/-- `run_query` transmits exactly one request, whatever the server
does. -/
theorem run_query_sent (self : AsyncPrometheusQueryExecutor)
    (net : Request → ServerAction) (query : String) :
    (run_query self net query).sentRequests = [instantRequest self query] := by
  unfold run_query
  repeat' split
  all_goals rfl

/-- A sequence of calls leaves the executor object unchanged. -/
theorem runCalls_id (self : AsyncPrometheusQueryExecutor)
    (calls : List ClientCall) : runCalls self calls = self := by
  induction calls generalizing self with
  | nil => rfl
  | cons c rest ih =>
      cases c with
      | instant net query =>
          rw [runCalls, execCall, run_query_finalSelf, ih]
      | range net query start end_ step =>
          rw [runCalls, execCall, run_range_query_finalSelf, ih]


/-! ## Auxiliary lemmas: decimal representations and the failure
message -/

/-- Accumulator lemma for the core decimal printer. -/
theorem toDigitsCore_append (b : Nat) (fuel : Nat) :
    ∀ (n : Nat) (ds : List Char),
      Nat.toDigitsCore b fuel n ds = Nat.toDigitsCore b fuel n [] ++ ds := by
  induction fuel with
  | zero => intro n ds; simp [Nat.toDigitsCore]
  | succ f ih =>
      intro n ds
      simp only [Nat.toDigitsCore]
      by_cases h : n / b = 0
      · simp [h]
      · rw [if_neg h, if_neg h, ih (n / b) (Nat.digitChar (n % b) :: ds),
            ih (n / b) [Nat.digitChar (n % b)]]
        simp

/-- The core decimal printer emits at least one character. -/
theorem toDigitsCore_ne_nil (b : Nat) (f : Nat) (k : Nat) :
    Nat.toDigitsCore b (f + 1) k [] ≠ [] := by
  simp only [Nat.toDigitsCore]
  by_cases h : k / b = 0
  · simp [h]
  · rw [if_neg h, toDigitsCore_append]
    simp

/-- The core decimal printer ignores its fuel, as long as there is
enough of it. -/
theorem toDigitsCore_fuel (b : Nat) (hb : 2 ≤ b) (n : Nat) :
    ∀ (f g : Nat), n ≤ f → n ≤ g →
      Nat.toDigitsCore b (f + 1) n [] = Nat.toDigitsCore b (g + 1) n [] := by
  induction n using Nat.strong_induction_on with
  | _ n ih =>
      intro f g hf hg
      simp only [Nat.toDigitsCore]
      by_cases h : n / b = 0
      · simp [h]
      · rw [if_neg h, if_neg h]
        have hn : 0 < n := by
          rcases Nat.eq_zero_or_pos n with rfl | h' <;> simp_all
        have hlt : n / b < n := Nat.div_lt_self hn (by omega)
        obtain ⟨f', rfl⟩ : ∃ f', f = f' + 1 := ⟨f - 1, by omega⟩
        obtain ⟨g', rfl⟩ : ∃ g', g = g' + 1 := ⟨g - 1, by omega⟩
        rw [toDigitsCore_append b (f' + 1), toDigitsCore_append b (g' + 1),
            ih (n / b) hlt f' g' (by omega) (by omega)]

/-- `Nat.digitChar` is injective below ten. -/
theorem digitChar_inj_lt :
    ∀ a < 10, ∀ b < 10, Nat.digitChar a = Nat.digitChar b → a = b := by
  decide

/-- Decimal printing is injective. -/
theorem toDigits_ten_inj (n : Nat) :
    ∀ m : Nat, Nat.toDigits 10 n = Nat.toDigits 10 m → n = m := by
  induction n using Nat.strong_induction_on with
  | _ n ih =>
      intro m h
      unfold Nat.toDigits at h
      simp only [Nat.toDigitsCore] at h
      by_cases hn : n / 10 = 0 <;> by_cases hm : m / 10 = 0
      · rw [if_pos hn, if_pos hm] at h
        injection h with hd _
        have := digitChar_inj_lt (n % 10) (Nat.mod_lt n (by omega))
          (m % 10) (Nat.mod_lt m (by omega)) hd
        omega
      · rw [if_pos hn, if_neg hm, toDigitsCore_append] at h
        obtain ⟨m', rfl⟩ : ∃ m', m = m' + 1 := ⟨m - 1, by omega⟩
        have hne := toDigitsCore_ne_nil 10 m' ((m' + 1) / 10)
        have hlen := congrArg List.length h
        simp at hlen
        exact absurd hlen hne
      · rw [if_neg hn, if_pos hm, toDigitsCore_append] at h
        obtain ⟨n', rfl⟩ : ∃ n', n = n' + 1 := ⟨n - 1, by omega⟩
        have hne := toDigitsCore_ne_nil 10 n' ((n' + 1) / 10)
        have hlen := congrArg List.length h
        simp at hlen
        exact absurd hlen hne
      · rw [if_neg hn, if_neg hm,
            toDigitsCore_append 10 n (n / 10) [(n % 10).digitChar],
            toDigitsCore_append 10 m (m / 10) [(m % 10).digitChar]] at h
        have h' := congrArg List.reverse h
        simp only [List.reverse_append, List.reverse_cons,
          List.reverse_nil, List.nil_append, List.singleton_append] at h'
        injection h' with hd htl
        have hmod := digitChar_inj_lt (n % 10) (Nat.mod_lt n (by omega))
          (m % 10) (Nat.mod_lt m (by omega)) hd
        have hcore : Nat.toDigitsCore 10 n (n / 10) []
            = Nat.toDigitsCore 10 m (m / 10) [] :=
          List.reverse_injective htl
        obtain ⟨n', rfl⟩ : ∃ n', n = n' + 1 := ⟨n - 1, by omega⟩
        obtain ⟨m', rfl⟩ : ∃ m', m = m' + 1 := ⟨m - 1, by omega⟩
        rw [toDigitsCore_fuel 10 (by omega) ((n' + 1) / 10) n'
              ((n' + 1) / 10) (by omega) (by omega),
            toDigitsCore_fuel 10 (by omega) ((m' + 1) / 10) m'
              ((m' + 1) / 10) (by omega) (by omega)] at hcore
        have hdiv := ih ((n' + 1) / 10) (by omega) ((m' + 1) / 10) hcore
        omega

/-- Above fifteen, `Nat.digitChar` is the placeholder star. -/
theorem digitChar_big (n : Nat) (h : 16 ≤ n) : Nat.digitChar n = '*' := by
  unfold Nat.digitChar
  repeat rw [if_neg]
  all_goals omega

/-- `Nat.digitChar` never yields a comma. -/
theorem digitChar_ne_comma (n : Nat) : Nat.digitChar n ≠ ',' := by
  by_cases h : n < 16
  · exact (by decide : ∀ k, k < 16 → Nat.digitChar k ≠ ',') n h
  · rw [digitChar_big n (by omega)]
    decide

/-- The core decimal printer never emits a comma. -/
theorem toDigitsCore_ne_comma (fuel : Nat) :
    ∀ (n : Nat) (ds : List Char), (∀ c ∈ ds, c ≠ ',') →
      ∀ c ∈ Nat.toDigitsCore 10 fuel n ds, c ≠ ',' := by
  induction fuel with
  | zero => intro n ds h; simpa [Nat.toDigitsCore] using h
  | succ f ih =>
      intro n ds h
      simp only [Nat.toDigitsCore]
      by_cases h0 : n / 10 = 0
      · rw [if_pos h0]
        intro c hc
        rcases List.mem_cons.mp hc with rfl | hmem
        · exact digitChar_ne_comma _
        · exact h c hmem
      · rw [if_neg h0]
        apply ih
        intro c hc
        rcases List.mem_cons.mp hc with rfl | hmem
        · exact digitChar_ne_comma _
        · exact h c hmem

/-- The decimal representation of a natural number has no comma. -/
theorem repr_ne_comma (n : Nat) : ∀ c ∈ (Nat.repr n).data, c ≠ ',' :=
  toDigitsCore_ne_comma (n + 1) n [] (by simp)

/-- A list of characters splits uniquely at a comma no prefix
contains. -/
theorem sep_split :
    ∀ (a1 b1 a2 b2 : List Char),
      (∀ c ∈ a1, c ≠ ',') → (∀ c ∈ a2, c ≠ ',') →
      a1 ++ ',' :: b1 = a2 ++ ',' :: b2 → a1 = a2 ∧ b1 = b2 := by
  intro a1
  induction a1 with
  | nil =>
      intro b1 a2 b2 h1 h2 heq
      cases a2 with
      | nil => simpa using heq
      | cons y ys =>
          simp only [List.nil_append, List.cons_append,
            List.cons.injEq] at heq
          exact absurd heq.1.symm (h2 y (by simp))
  | cons x xs ih =>
      intro b1 a2 b2 h1 h2 heq
      cases a2 with
      | nil =>
          simp only [List.nil_append, List.cons_append,
            List.cons.injEq] at heq
          exact absurd heq.1 (h1 x (by simp))
      | cons y ys =>
          simp only [List.cons_append, List.cons.injEq] at heq
          obtain ⟨rfl, htl⟩ := heq
          obtain ⟨ha, hb⟩ := ih b1 ys b2
            (fun c hc => h1 c (by simp [hc]))
            (fun c hc => h2 c (by simp [hc])) htl
          exact ⟨by rw [ha], hb⟩

/-- The failure message determines the status code and the body text:
no two distinct (status, body) pairs collide. -/
theorem statusFailMessage_inj (S1 S2 : Nat) (T1 T2 : String)
    (h : statusFailMessage S1 T1 = statusFailMessage S2 T2) :
    S1 = S2 ∧ T1 = T2 := by
  have hdata := congrArg String.data h
  simp only [statusFailMessage, String.data_append, List.append_assoc,
    show (", ").data = [',', ' '] from rfl, List.cons_append,
    List.nil_append] at hdata
  simp only [List.cons.injEq, eq_self_iff_true, true_and] at hdata
  have hcancel := hdata
  have hrepr : ∀ S : Nat, ∀ c ∈ (toString S).data, c ≠ ',' :=
    fun S => repr_ne_comma S
  obtain ⟨hs, ht⟩ := sep_split (toString S1).data (' ' :: T1.data)
    (toString S2).data (' ' :: T2.data) (hrepr S1) (hrepr S2) hcancel
  injection ht with _ ht2
  refine ⟨toDigits_ten_inj S1 S2 hs, ?_⟩
  cases T1
  cases T2
  exact congrArg String.mk ht2

/-! ## Claim theorems -/

/-- C3: for every query string, whenever the transport yields a 200
response whose body parses as the JSON value `B`, `run_query` returns
exactly `B`, unmodified. -/
theorem run_query_returns_json_on_200
    (self : AsyncPrometheusQueryExecutor) (net : Request → ServerAction)
    (query : String) (resp : Response) (B : Json)
    (hok : transport net (instantRequest self query) = .ok resp)
    (h200 : resp.status_code = 200) (hB : resp.jsonBody = some B) :
    (run_query self net query).result = .ok B := by
  unfold run_query
  rw [hok]
  simp [h200, hB]

/-- A sample JSON body used by concrete instantiations:
`\x7b"status":"success","data":\x7b\x7d\x7d`. -/
def sampleBody : Json := .obj [("status", .str "success"), ("data", .obj [])]

/-- A sample 200 response carrying `sampleBody`. -/
def sampleResp200 : Response := ⟨200, [], "body", some sampleBody⟩

/-- A server that answers every request with `sampleResp200` after one
second. -/
def net200 : Request → ServerAction := fun _ => .respond 1 sampleResp200

/-- Witness for C3: the concrete 200 response. -/
theorem run_query_returns_json_on_200_witness :
    (run_query (.init "http://prom") net200 "up").result = .ok sampleBody :=
  run_query_returns_json_on_200 (.init "http://prom") net200 "up"
    sampleResp200 sampleBody rfl rfl rfl

/-- C5: for every call to `run_range_query` whose response has status
200 and a body parsing as the JSON value `B`, the call returns exactly
`B` (wrapped as the success outcome), unchanged. -/
theorem run_range_query_returns_json_on_200
    (self : AsyncPrometheusQueryExecutor) (net : Request → ServerAction)
    (query : String) (a b : Rat) (step : String)
    (resp : Response) (B : Json)
    (hok : transport net (rangeRequest self query) = .ok resp)
    (h200 : resp.status_code = 200) (hB : resp.jsonBody = some B) :
    (run_range_query self net query (.datetimeVal a) (.datetimeVal b)
        step).result = .ok (.success B) := by
  unfold run_range_query
  rw [show timestampAttr (.datetimeVal a) = .ok a from rfl,
      show timestampAttr (.datetimeVal b) = .ok b from rfl, hok]
  simp [h200, hB]

/-- Witness for C5: the concrete 200 response with body
`\x7b"status":"success","data":\x7b\x7d\x7d` returned unchanged. -/
theorem run_range_query_returns_json_on_200_witness :
    (run_range_query (.init "http://prom") net200 "up"
        (.datetimeVal 0) (.datetimeVal 60) "1m").result
      = .ok (.success sampleBody) :=
  run_range_query_returns_json_on_200 (.init "http://prom") net200 "up"
    0 60 "1m" sampleResp200 sampleBody rfl rfl rfl

/-- C2: on a 302 response carrying a `Location` header `L`,
`run_range_query` raises no error: it produces the redirected outcome
carrying exactly `L`, a constructor distinct from the success outcome. -/
theorem run_range_query_redirect_outcome
    (self : AsyncPrometheusQueryExecutor) (net : Request → ServerAction)
    (query : String) (a b : Rat) (step : String)
    (resp : Response) (L : String)
    (hok : transport net (rangeRequest self query) = .ok resp)
    (h302 : resp.status_code = 302)
    (hLoc : headersGet resp.headers "Location" = some L) :
    (run_range_query self net query (.datetimeVal a) (.datetimeVal b)
        step).result = .ok (.redirected (some L)) ∧
      ∀ j : Json, RangeOutcome.redirected (some L) ≠ .success j := by
  refine ⟨?_, fun j h => by cases h⟩
  unfold run_range_query
  rw [show timestampAttr (.datetimeVal a) = .ok a from rfl,
      show timestampAttr (.datetimeVal b) = .ok b from rfl, hok]
  simp [h302, hLoc]

/-- A sample 302 response redirecting to `http://example/redirect`. -/
def sampleResp302 : Response :=
  ⟨302, [("Location", "http://example/redirect")], "", none⟩

/-- A server that answers every request with `sampleResp302` after one
second. -/
def net302 : Request → ServerAction := fun _ => .respond 1 sampleResp302

/-- Witness for C2: the concrete 302 response with
`Location: http://example/redirect`. -/
theorem run_range_query_redirect_outcome_witness :
    (run_range_query (.init "http://prom") net302 "up"
        (.datetimeVal 0) (.datetimeVal 60) "1m").result
      = .ok (.redirected (some "http://example/redirect")) ∧
      ∀ j : Json,
        RangeOutcome.redirected (some "http://example/redirect")
          ≠ .success j :=
  run_range_query_redirect_outcome (.init "http://prom") net302 "up"
    0 60 "1m" sampleResp302 "http://example/redirect" rfl rfl rfl

/-- C1: whatever the start, end and step arguments are, every request
`run_range_query` actually transmits carries only the `query` parameter
(the computed start/end/step never appear) and explicitly disables
redirect-following. -/
theorem run_range_query_sends_only_query_param_no_redirects
    (self : AsyncPrometheusQueryExecutor) (net : Request → ServerAction)
    (query : String) (start end_ : PyTimeArg) (step : String) :
    ∀ req ∈ (run_range_query self net query start end_ step).sentRequests,
      req.params = [("query", ParamValue.str query)] ∧
      req.follow_redirects = some false := by
  intro req hreq
  rw [run_range_query_sent_eq self net query start end_ step req hreq]
  exact ⟨rfl, rfl⟩

/-- Witness for C1: the single request of a concrete call, against a
server answering 200, carries only the `query` parameter and
`follow_redirects=False`. -/
theorem run_range_query_sends_only_query_param_no_redirects_witness :
    (rangeRequest (.init "http://prom") "up").params
        = [("query", ParamValue.str "up")] ∧
      (rangeRequest (.init "http://prom") "up").follow_redirects
        = some false :=
  run_range_query_sends_only_query_param_no_redirects
    (.init "http://prom") net200 "up" (.datetimeVal 0) (.datetimeVal 60)
    "1m" (rangeRequest (.init "http://prom") "up") (by decide)

/-- C6: the client configuration is immutable — each method returns the
executor object exactly as it received it, and any sequence of calls
leaves it unchanged, base URL and timeout included. -/
theorem client_config_immutable :
    (∀ (self : AsyncPrometheusQueryExecutor) net query,
        (run_query self net query).finalSelf = self) ∧
      (∀ (self : AsyncPrometheusQueryExecutor) net query start end_ step,
        (run_range_query self net query start end_ step).finalSelf = self) ∧
      (∀ (self : AsyncPrometheusQueryExecutor)
          (calls : List ClientCall),
        runCalls self calls = self ∧
          (runCalls self calls).prometheus_base_url
            = self.prometheus_base_url ∧
          (runCalls self calls).request_timeout = self.request_timeout) :=
  ⟨run_query_finalSelf, run_range_query_finalSelf,
   fun self calls => ⟨runCalls_id self calls,
     by rw [runCalls_id], by rw [runCalls_id]⟩⟩

/-- C7: `run_query` transmits exactly one GET request, aimed at
`\x7bbase_url\x7d/api/v1/query`, carrying the query string as the
`query` parameter under the configured timeout; and a client constructed
without a timeout argument gets the default of 10.0 seconds. -/
theorem run_query_request_shape_and_default_timeout :
    (∀ (self : AsyncPrometheusQueryExecutor) net query,
        (run_query self net query).sentRequests =
          [{ method := "GET",
             url := self.prometheus_base_url ++ "/api/v1/query",
             params := [("query", ParamValue.str query)],
             follow_redirects := none,
             timeout := self.request_timeout }]) ∧
      (∀ url, (AsyncPrometheusQueryExecutor.init url).request_timeout
        = 10) :=
  ⟨fun self net query => run_query_sent self net query, fun _ => rfl⟩

/-- C4: on any non-200 status `S` with body text `T`, `run_query` fails
with the exception built from exactly `S` and `T`; `run_range_query`
does the same on any status other than 200 and 302; and the message
determines `S` and `T` (the error carries exactly them, with no
collision between distinct status/body pairs). -/
theorem status_failure_exposes_status_and_body :
    (∀ (self : AsyncPrometheusQueryExecutor) net query resp S T,
        transport net (instantRequest self query) = .ok resp →
        resp.status_code = S → resp.text = T → S ≠ 200 →
        (run_query self net query).result
          = .error (.exn (statusFailMessage S T))) ∧
      (∀ (self : AsyncPrometheusQueryExecutor) net query
          (a b : Rat) step resp S T,
        transport net (rangeRequest self query) = .ok resp →
        resp.status_code = S → resp.text = T → S ≠ 200 → S ≠ 302 →
        (run_range_query self net query (.datetimeVal a) (.datetimeVal b)
            step).result = .error (.exn (statusFailMessage S T))) ∧
      (∀ S1 T1 S2 T2, statusFailMessage S1 T1 = statusFailMessage S2 T2 →
        S1 = S2 ∧ T1 = T2) := by
  refine ⟨?_, ?_, fun S1 T1 S2 T2 h => statusFailMessage_inj S1 S2 T1 T2 h⟩
  · intro self net query resp S T hok hS hT hne
    unfold run_query
    rw [hok]
    simp [hS, hT, hne]
  · intro self net query a b step resp S T hok hS hT hne hne302
    unfold run_range_query
    rw [show timestampAttr (.datetimeVal a) = .ok a from rfl,
        show timestampAttr (.datetimeVal b) = .ok b from rfl, hok]
    simp [hS, hT, hne, hne302]

/-- A sample 404 response with plain body text. -/
def sampleResp404 : Response := ⟨404, [], "not found", none⟩

/-- A server that answers every request with `sampleResp404` after one
second. -/
def net404 : Request → ServerAction := fun _ => .respond 1 sampleResp404

/-- Witness for C4: the concrete 404 response. -/
theorem status_failure_exposes_status_and_body_witness :
    (run_query (.init "http://prom") net404 "up").result
      = .error (.exn (statusFailMessage 404 "not found")) :=
  status_failure_exposes_status_and_body.1 (.init "http://prom") net404
    "up" sampleResp404 404 "not found" rfl rfl rfl (by decide)

/-- C10: every HTTP-status failure, of either method, is the generic
exception constructor carrying nothing but the single formatted message
string `"Failed to fetch data: \x7bstatus\x7d, \x7bbody\x7d"` — no
structured fields. -/
theorem status_failure_generic_exception_message :
    (∀ S T, statusFailMessage S T
        = "Failed to fetch data: " ++ toString S ++ ", " ++ T) ∧
      (∀ (self : AsyncPrometheusQueryExecutor) net query resp,
        transport net (instantRequest self query) = .ok resp →
        resp.status_code ≠ 200 →
        (run_query self net query).result
          = .error (.exn ("Failed to fetch data: "
              ++ toString resp.status_code ++ ", " ++ resp.text))) ∧
      (∀ (self : AsyncPrometheusQueryExecutor) net query
          (a b : Rat) step resp,
        transport net (rangeRequest self query) = .ok resp →
        resp.status_code ≠ 302 → resp.status_code ≠ 200 →
        (run_range_query self net query (.datetimeVal a) (.datetimeVal b)
            step).result
          = .error (.exn ("Failed to fetch data: "
              ++ toString resp.status_code ++ ", " ++ resp.text))) := by
  refine ⟨fun S T => rfl, ?_, ?_⟩
  · intro self net query resp hok hne
    unfold run_query
    rw [hok]
    simp [hne, statusFailMessage]
  · intro self net query a b step resp hok hne302 hne
    unfold run_range_query
    rw [show timestampAttr (.datetimeVal a) = .ok a from rfl,
        show timestampAttr (.datetimeVal b) = .ok b from rfl, hok]
    simp [hne, hne302, statusFailMessage]

/-- Witness for C10: the concrete 404 response on the range path. -/
theorem status_failure_generic_exception_message_witness :
    (run_range_query (.init "http://prom") net404 "up"
        (.datetimeVal 0) (.datetimeVal 60) "1m").result
      = .error (.exn ("Failed to fetch data: "
          ++ toString (404 : Nat) ++ ", " ++ "not found")) :=
  status_failure_generic_exception_message.2.2 (.init "http://prom")
    net404 "up" 0 60 "1m" sampleResp404 rfl (by decide) (by decide)

/-- C8: whenever the server takes longer than the configured timeout to
answer, either method fails with the timeout-classified transport error
— whatever response (and status code) the server would eventually have
produced, so no status classification is ever reached. -/
theorem timeout_exceeded_fails_with_transport_timeout :
    (∀ (self : AsyncPrometheusQueryExecutor) net query (t : Rat) resp,
        net (instantRequest self query) = .respond t resp →
        self.request_timeout < t →
        (run_query self net query).result
          = .error (.transport .timeout)) ∧
      (∀ (self : AsyncPrometheusQueryExecutor) net query
          (a b : Rat) step (t : Rat) resp,
        net (rangeRequest self query) = .respond t resp →
        self.request_timeout < t →
        (run_range_query self net query (.datetimeVal a) (.datetimeVal b)
            step).result = .error (.transport .timeout)) := by
  constructor
  · intro self net query t resp hnet hlt
    unfold run_query transport
    rw [hnet]
    simp [instantRequest, hlt]
  · intro self net query a b step t resp hnet hlt
    unfold run_range_query transport
    rw [show timestampAttr (.datetimeVal a) = .ok a from rfl,
        show timestampAttr (.datetimeVal b) = .ok b from rfl, hnet]
    simp [rangeRequest, hlt]

/-- A server that answers every request only after eleven seconds
(longer than the default ten-second timeout). -/
def netSlow : Request → ServerAction := fun _ => .respond 11 sampleResp200

/-- Witness for C8: an eleven-second response against the default
ten-second timeout. -/
theorem timeout_exceeded_fails_with_transport_timeout_witness :
    (run_query (.init "http://prom") netSlow "up").result
      = .error (.transport .timeout) :=
  timeout_exceeded_fails_with_transport_timeout.1 (.init "http://prom")
    netSlow "up" 11 sampleResp200 rfl
    (by norm_num [AsyncPrometheusQueryExecutor.init])

/-- C9: `run_range_query` evaluates `start.timestamp()` then
`end.timestamp()` before opening any connection: if either argument
lacks the method the call raises `AttributeError` with an empty
transmission trace, and in particular passing plain epoch-second floats
fails this way before any request is sent. -/
theorem range_query_requires_timestamp_method :
    (∀ (self : AsyncPrometheusQueryExecutor) net query start end_ step e,
        timestampAttr start = .error e →
        run_range_query self net query start end_ step
          = ⟨.error (.pyErr e), [], self⟩) ∧
      (∀ (self : AsyncPrometheusQueryExecutor) net query (a : Rat)
          end_ step e,
        timestampAttr end_ = .error e →
        run_range_query self net query (.datetimeVal a) end_ step
          = ⟨.error (.pyErr e), [], self⟩) ∧
      (∀ (self : AsyncPrometheusQueryExecutor) net query (x y : Rat)
          step,
        run_range_query self net query (.floatVal x) (.floatVal y) step
          = ⟨.error (.pyErr (.attributeError
              "float object has no attribute timestamp")), [], self⟩) := by
  refine ⟨?_, ?_, ?_⟩
  · intro self net query start end_ step e he
    unfold run_range_query
    rw [he]
  · intro self net query a end_ step e he
    unfold run_range_query
    rw [show timestampAttr (.datetimeVal a) = .ok a from rfl, he]
  · intro self net query x y step
    rfl

/-- Witness for C9: a float `start` argument makes the call fail before
anything is transmitted. -/
theorem range_query_requires_timestamp_method_witness :
    run_range_query (.init "http://prom") net200 "up"
        (.floatVal 0) (.datetimeVal 60) "1m"
      = ⟨.error (.pyErr (.attributeError
          "float object has no attribute timestamp")), [],
         .init "http://prom"⟩ :=
  range_query_requires_timestamp_method.1 (.init "http://prom") net200
    "up" (.floatVal 0) (.datetimeVal 60) "1m"
    (.attributeError "float object has no attribute timestamp") rfl
